import Mathlib

/-!
Verification of the Scoring & Consensus Engine of the ProtoML repository
(`helper/paper_scorer.py`, `helper/agent_debate.py`, `config.py`).

The Python code is shallowly embedded: Python dicts produced by `json.loads`
become the inductive type `Json` (an insertion-ordered association list for
objects, looked up at the last binding like a Python dict built by the json
module); Python floats are modelled as rationals (`Rat`) — every number the
engine manipulates is a JSON number times decimal weights, where rational
arithmetic agrees with the intent of the spec; code that can raise an
exception returns `Except String α`, the `String` standing for the exception
message; external language-model calls are modelled as oracle response values
(`Except String String`: an error is a raised exception in the client call, an
`ok` is the raw response text).
-/

namespace ProtoML

/-- JSON values, as produced by Python's `json.loads`.  Objects keep their
fields in source order; a duplicate key is resolved by `getField` taking the
last binding, matching the json module's dict construction.  Numbers are
rationals (the engine only ever multiplies them by decimal weights; the NaN /
Infinity extensions of Python's reader are not modelled). -/
inductive Json where
  | null : Json
  | bool (b : Bool) : Json
  | num (q : Rat) : Json
  | str (s : String) : Json
  | arr (elems : List Json) : Json
  | obj (fields : List (String × Json)) : Json

/-- Look up a key in an association list, taking the LAST binding (Python's
dict semantics for duplicate JSON keys). -/
def lookupLast (k : String) : List (String × Json) → Option Json
  | [] => none
  | (k₂, v) :: rest =>
    match lookupLast k rest with
    | some r => some r
    | none => if k₂ = k then some v else none

/-- Python's `d[k]` on a parsed JSON value: succeeds only on an object that
has the key; on a non-object (`TypeError`) or a missing key (`KeyError`) the
access raises, modelled as `none`. -/
def Json.getField (j : Json) (k : String) : Option Json :=
  match j with
  | .obj fields => lookupLast k fields
  | _ => none

/-- The whitespace characters recognised by Python's `str.strip()` for ASCII
input (space, tab, newline, carriage return, vertical tab, form feed). -/
def pyIsSpace (c : Char) : Bool :=
  c = ' ' || c = '\t' || c = '\n' || c = '\r' || c = '\x0b' || c = '\x0c'

/-- Python's `s.strip()`: remove leading and trailing whitespace. -/
def pyStrip (s : String) : String :=
  let cs := s.toList.dropWhile pyIsSpace
  String.mk ((cs.reverse.dropWhile pyIsSpace).reverse)

/-- Test for a literal prefix: `dropLit l cs` is the remainder of `cs` after
the prefix `l`, when `l` is a prefix. -/
def dropLit : List Char → List Char → Option (List Char)
  | [], cs => some cs
  | _, [] => none
  | l :: ls, c :: cs => if l = c then dropLit ls cs else none

/-- Worker for `pySplit`: scan left to right, breaking at each leftmost
non-overlapping occurrence of the (non-empty) separator.  The fuel dominates
the input length, so the zero-fuel branch is never reached. -/
def pySplitAux (sep : List Char) : Nat → List Char → List Char → List (List Char)
  | 0, rest, acc => [acc.reverse ++ rest]
  | _ + 1, [], acc => [acc.reverse]
  | fuel + 1, c :: cs, acc =>
    match dropLit sep (c :: cs) with
    | some rest => acc.reverse :: pySplitAux sep fuel rest []
    | none => pySplitAux sep fuel cs (c :: acc)

/-- Python's `s.split(sep)` for a non-empty separator: split at every
leftmost non-overlapping occurrence; a separator occurring `k` times yields
`k + 1` parts. -/
def pySplit (s sep : String) : List String :=
  (pySplitAux sep.toList (s.toList.length + 1) s.toList []).map String.mk

/-- Python's `sub in s` test for a non-empty substring `sub`, via the parts
count of `split`: `sub` occurs in `s` iff splitting on it yields more than
one part. -/
def pyContains (sub s : String) : Bool :=
  (pySplit s sub).length ≠ 1

/-- The markdown code-fence stripping applied to a model response before
`json.loads`, from `agent_debate.py` lines 316–319 (the same lines appear in
`paper_scorer.py` lines 74–77):

    if "```json" in content:
        content = content.split("```json")[1].split("```")[0].strip()
    elif "```" in content:
        content = content.split("```")[1].split("```")[0].strip()

`split(sep)[1]` is the text after the first occurrence of `sep` (up to its
next occurrence), and `split(sep)[0]` the text before the first occurrence. -/
def stripCodeFence (content : String) : String :=
  if pyContains "```json" content then
    pyStrip ((pySplit ((pySplit content "```json").getD 1 "") "```").getD 0 "")
  else if pyContains "```" content then
    pyStrip ((pySplit ((pySplit content "```").getD 1 "") "```").getD 0 "")
  else
    content

/-! ### A model of Python's `json.loads`

A recursive-descent reader over the character list, with a fuel argument for
termination; `json_loads` supplies fuel that dominates the input length, so
fuel exhaustion never occurs on inputs of interest.  The reader follows the
JSON grammar that `json.loads` accepts (strict mode): the `NaN`/`Infinity`
extensions and `\u` escapes denoting surrogate pairs are the only corners not
modelled (a `\u` escape maps to its code point directly). -/

/-- Skip JSON insignificant whitespace (space, tab, newline, carriage return —
exactly the set skipped by Python's json module). -/
def skipWs : List Char → List Char
  | c :: cs => if c = ' ' ∨ c = '\t' ∨ c = '\n' ∨ c = '\r' then skipWs cs else c :: cs
  | [] => []

/-- Digit test and value. -/
def digitVal (c : Char) : Option Nat :=
  if '0' ≤ c ∧ c ≤ '9' then some (c.toNat - '0'.toNat) else none

/-- Consume a maximal run of decimal digits, returning them and the rest. -/
def takeDigits : List Char → List Char × List Char
  | [] => ([], [])
  | c :: cs =>
    if '0' ≤ c ∧ c ≤ '9' then
      let (ds, rest) := takeDigits cs
      (c :: ds, rest)
    else ([], c :: cs)

/-- Numeric value of a digit run. -/
def digitsToNat (ds : List Char) : Nat :=
  ds.foldl (fun acc c => acc * 10 + (c.toNat - '0'.toNat)) 0

/-- Hexadecimal digit value, for `\u` escapes. -/
def hexVal (c : Char) : Option Nat :=
  if '0' ≤ c ∧ c ≤ '9' then some (c.toNat - '0'.toNat)
  else if 'a' ≤ c ∧ c ≤ 'f' then some (c.toNat - 'a'.toNat + 10)
  else if 'A' ≤ c ∧ c ≤ 'F' then some (c.toNat - 'A'.toNat + 10)
  else none

/-- Parse the body of a JSON string (the opening quote already consumed).
Strict mode: unescaped control characters are rejected. -/
def parseStringBody : Nat → List Char → List Char → Option (String × List Char)
  | 0, _, _ => none
  | _ + 1, [], _ => none
  | fuel + 1, c :: cs, acc =>
    if c = '"' then some (String.mk acc.reverse, cs)
    else if c = '\\' then
      match cs with
      | [] => none
      | e :: cs₂ =>
        if e = '"' then parseStringBody fuel cs₂ ('"' :: acc)
        else if e = '\\' then parseStringBody fuel cs₂ ('\\' :: acc)
        else if e = '/' then parseStringBody fuel cs₂ ('/' :: acc)
        else if e = 'b' then parseStringBody fuel cs₂ ('\x08' :: acc)
        else if e = 'f' then parseStringBody fuel cs₂ ('\x0c' :: acc)
        else if e = 'n' then parseStringBody fuel cs₂ ('\n' :: acc)
        else if e = 'r' then parseStringBody fuel cs₂ ('\r' :: acc)
        else if e = 't' then parseStringBody fuel cs₂ ('\t' :: acc)
        else if e = 'u' then
          match cs₂ with
          | h₁ :: h₂ :: h₃ :: h₄ :: cs₃ =>
            match hexVal h₁, hexVal h₂, hexVal h₃, hexVal h₄ with
            | some a, some b, some c₃, some d =>
              let code := ((a * 16 + b) * 16 + c₃) * 16 + d
              if code.isValidChar then
                parseStringBody fuel cs₃ (Char.ofNat code :: acc)
              else none
            | _, _, _, _ => none
          | _ => none
        else none
    else if c.toNat < 0x20 then none
    else parseStringBody fuel cs (c :: acc)

/-- Parse a JSON number (grammar `-? (0 | [1-9][0-9]*) frac? exp?`),
returning its exact rational value.  The value is assembled from the digit
runs with a single `Rat.divInt`, so that it evaluates by kernel reduction. -/
def parseNumber (cs : List Char) : Option (Rat × List Char) :=
  let (neg, cs₁) :=
    match cs with
    | '-' :: rest => (true, rest)
    | _ => (false, cs)
  let (intDs, cs₂) := takeDigits cs₁
  match intDs with
  | [] => none
  | d₀ :: ds₀ =>
    -- no leading zero on a multi-digit integer part
    if d₀ = '0' ∧ ds₀ ≠ [] then none
    else
      let (fracOk, fracDs, cs₃) :=
        match cs₂ with
        | '.' :: rest =>
          let (fds, rest₂) := takeDigits rest
          -- a bare '.' with no digits is a syntax error
          if fds = [] then (false, ([] : List Char), cs₂)
          else (true, fds, rest₂)
        | _ => (true, ([] : List Char), cs₂)
      if ¬ fracOk then none
      else
        let (expOk, expVal, cs₄) :=
          match cs₃ with
          | e :: rest =>
            if e = 'e' ∨ e = 'E' then
              let (eneg, rest₂) :=
                match rest with
                | '-' :: r => (true, r)
                | '+' :: r => (false, r)
                | _ => (false, rest)
              let (eds, rest₃) := takeDigits rest₂
              if eds = [] then (false, (0 : Int), cs₃)
              else (true, (if eneg then -(digitsToNat eds : Int) else (digitsToNat eds : Int)), rest₃)
            else (true, 0, cs₃)
          | [] => (true, 0, cs₃)
        if ¬ expOk then none
        else
          let mantissa : Int := (digitsToNat (intDs ++ fracDs) : Nat)
          let signed : Int := if neg then -mantissa else mantissa
          let e10 : Int := expVal - (fracDs.length : Int)
          let q : Rat :=
            if 0 ≤ e10 then Rat.divInt (signed * ((10 ^ e10.toNat : Nat) : Int)) 1
            else Rat.divInt signed ((10 ^ (-e10).toNat : Nat) : Int)
          some (q, cs₄)

mutual

/-- Parse one JSON value (leading whitespace skipped here). -/
def parseValue : Nat → List Char → Option (Json × List Char)
  | 0, _ => none
  | fuel + 1, cs =>
    match skipWs cs with
    | [] => none
    | c :: rest =>
      if c = '"' then
        match parseStringBody fuel rest [] with
        | some (s, rest₂) => some (.str s, rest₂)
        | none => none
      else if c = '\x7b' then
        parseMembers fuel rest true []
      else if c = '[' then
        parseElements fuel rest true []
      else if c = 't' then
        match dropLit ['r', 'u', 'e'] rest with
        | some rest₂ => some (.bool true, rest₂)
        | none => none
      else if c = 'f' then
        match dropLit ['a', 'l', 's', 'e'] rest with
        | some rest₂ => some (.bool false, rest₂)
        | none => none
      else if c = 'n' then
        match dropLit ['u', 'l', 'l'] rest with
        | some rest₂ => some (.null, rest₂)
        | none => none
      else
        match parseNumber (c :: rest) with
        | some (q, rest₂) => some (.num q, rest₂)
        | none => none

/-- Parse the members of an object after the opening brace.  `first` is true
when no member has been consumed yet.  A trailing comma or a missing comma is
a syntax error, as in Python's strict reader. -/
def parseMembers : Nat → List Char → Bool → List (String × Json) → Option (Json × List Char)
  | 0, _, _, _ => none
  | fuel + 1, cs, first, acc =>
    match skipWs cs with
    | [] => none
    | c :: rest =>
      if c = '\x7d' then some (.obj acc.reverse, rest)
      else
        let afterSep :=
          if first then some (c :: rest)
          else if c = ',' then some (skipWs rest)
          else none
        match afterSep with
        | none => none
        | some cs₂ =>
          match cs₂ with
          | '"' :: cs₃ =>
            match parseStringBody fuel cs₃ [] with
            | none => none
            | some (k, cs₄) =>
              match skipWs cs₄ with
              | ':' :: cs₅ =>
                match parseValue fuel cs₅ with
                | none => none
                | some (v, cs₆) => parseMembers fuel cs₆ false ((k, v) :: acc)
              | _ => none
          | _ => none

/-- Parse the elements of an array after the opening bracket. -/
def parseElements : Nat → List Char → Bool → List Json → Option (Json × List Char)
  | 0, _, _, _ => none
  | fuel + 1, cs, first, acc =>
    match skipWs cs with
    | [] => none
    | c :: rest =>
      if c = ']' then some (.arr acc.reverse, rest)
      else
        let cs₂ :=
          if first then some (c :: rest)
          else if c = ',' then some rest
          else none
        match cs₂ with
        | none => none
        | some cs₃ =>
          match parseValue fuel cs₃ with
          | none => none
          | some (v, cs₄) => parseElements fuel cs₄ false (v :: acc)

end

/-- Python's `json.loads`: parse one JSON document; trailing non-whitespace is
`Extra data`, an error.  The error string stands for the exception message. -/
def json_loads (s : String) : Except String Json :=
  let cs := s.toList
  match parseValue (4 * cs.length + 16) cs with
  | none => .error "json.decoder.JSONDecodeError"
  | some (j, rest) =>
    match skipWs rest with
    | [] => .ok j
    | _ => .error "json.decoder.JSONDecodeError: Extra data"

/-! ### Kernel-reducible rational arithmetic

`Rat.add` and `Rat.mul` do not evaluate inside `decide`/`rfl` proofs, so the
embedding computes with `Rat.divInt` over the numerator/denominator fields
and bridges to the standard operations by the lemmas below. -/

/-- Exact rational addition via `Rat.divInt` (agrees with `+`). -/
def qadd (a b : Rat) : Rat := Rat.divInt (a.num * b.den + b.num * a.den) (a.den * b.den)

/-- Exact rational multiplication via `Rat.divInt` (agrees with `*`). -/
def qmul (a b : Rat) : Rat := Rat.divInt (a.num * b.num) (a.den * b.den)

theorem qadd_eq (a b : Rat) : qadd a b = a + b := by
  unfold qadd
  rw [Rat.divInt_eq_div]
  have ha : (a.den : ℚ) ≠ 0 := by exact_mod_cast a.den_nz
  have hb : (b.den : ℚ) ≠ 0 := by exact_mod_cast b.den_nz
  conv_rhs => rw [← Rat.num_div_den a, ← Rat.num_div_den b]
  push_cast
  field_simp

theorem qmul_eq (a b : Rat) : qmul a b = a * b := by
  unfold qmul
  rw [Rat.divInt_eq_div]
  have ha : (a.den : ℚ) ≠ 0 := by exact_mod_cast a.den_nz
  have hb : (b.den : ℚ) ≠ 0 := by exact_mod_cast b.den_nz
  conv_rhs => rw [← Rat.num_div_den a, ← Rat.num_div_den b]
  push_cast
  field_simp

/-! ### The data model

A paper is a Python dict built by the fetcher; the engine reads the fields
below.  A scored paper is the same dict plus the evaluator's score dict
(`groq_scores` / `gemini_scores`, held as parsed `Json`) and the weighted
total (`groq_total_score` / `gemini_total_score`).  A debate candidate is the
top scored paper of one evaluator, with the fields the debate reads:
`arxiv_id`, `title`, `abstract`, its backend's `*_total_score`, and its
backend's `*_scores['reasoning']` string. -/

/-- The fields of a fetched paper that the scoring engine reads. -/
structure Paper where
  arxiv_id : String
  title : String
  primary_category : String
  abstract : String
deriving Repr, DecidableEq

/-- A scored paper: the input paper, the evaluator's parsed score payload
(or the substituted default), and the weighted total score. -/
structure ScoredEntry where
  paper : Paper
  scores : Json
  total_score : Rat

/-- A debate candidate: the fields of a top scored paper that
`AgentDebate` reads (`reasoning` is the candidate's own evaluator's
`*_scores['reasoning']` string). -/
structure Candidate where
  arxiv_id : String
  title : String
  abstract : String
  total_score : Rat
  reasoning : String

/-! ### `config.py`: scoring weights -/

/-- `config.SCORING_WEIGHTS` (lines 36–41): four criteria, each weighted
0.25. -/
def SCORING_WEIGHTS : List (String × Rat) :=
  [("problem_relevance", Rat.divInt 1 4),
   ("dataset_quality", Rat.divInt 1 4),
   ("model_novelty", Rat.divInt 1 4),
   ("real_world_impact", Rat.divInt 1 4)]

/-! ### `paper_scorer.py`: the scoring runs -/

/-- One term `scores[criterion] * weight` of the weighted sum
(`paper_scorer.py` lines 82–85).  A missing criterion raises `KeyError`; a
non-numeric criterion value (or a non-dict payload) raises `TypeError`; a
boolean is a Python `bool`, which multiplies as 0 or 1. -/
def jsonTimesWeight (scores : Json) (cw : String × Rat) : Except String Rat :=
  match scores.getField cw.1 with
  | some (.num q) => .ok (qmul q cw.2)
  | some (.bool b) => .ok (qmul (if b then 1 else 0) cw.2)
  | some _ => .error "TypeError: unsupported operand type for *"
  | none => .error ("KeyError or TypeError: " ++ cw.1)

/-- The weighted total
`sum(scores[criterion] * weight for criterion, weight in weights.items())`:
terms are taken in the insertion order of the weight map, and the first
failing term raises. -/
def weightedTotal (weights : List (String × Rat)) (scores : Json) : Except String Rat :=
  match weights with
  | [] => .ok 0
  | cw :: rest =>
    match jsonTimesWeight scores cw, weightedTotal rest scores with
    | .ok x, .ok s => .ok (qadd x s)
    | .error e, _ => .error e
    | _, .error e => .error e

/-- The default score dict substituted when scoring a paper fails
(`paper_scorer.py` lines 97–104 and 176–183): every criterion 5, a
diagnostic `reasoning` carrying the exception message, and
`overall_impression = "Unable to score"`. -/
def defaultScores (msg : String) : Json :=
  Json.obj [("problem_relevance", .num 5),
            ("dataset_quality", .num 5),
            ("model_novelty", .num 5),
            ("real_world_impact", .num 5),
            ("reasoning", .str ("Error during scoring: " ++ msg)),
            ("overall_impression", .str "Unable to score")]

/-- Score one paper with the Groq evaluator (`score_with_groq` loop body,
lines 59–106): on a successful call, strip any markdown fence, parse the
JSON payload and compute the weighted total; any exception — client error,
parse error, missing/non-numeric criterion — is caught and the default
score dict with total 5.0 is substituted.  `resp` is the oracle for the
one external call made for this paper (`.error` is a raised exception,
`.ok` the raw response content). -/
def score_one_groq (resp : Except String String) (paper : Paper) : ScoredEntry :=
  match resp with
  | .error msg => ⟨paper, defaultScores msg, 5⟩
  | .ok content =>
    match json_loads (stripCodeFence content) with
    | .error msg => ⟨paper, defaultScores msg, 5⟩
    | .ok scores =>
      match weightedTotal SCORING_WEIGHTS scores with
      | .error msg => ⟨paper, defaultScores msg, 5⟩
      | .ok w => ⟨paper, scores, w⟩

/-- Score one paper with the Gemini evaluator (`score_with_gemini` loop
body, lines 137–185).  The Gemini path strips surrounding whitespace from
the response (`response.text.strip()`) but applies no markdown-fence
stripping before `json.loads`. -/
def score_one_gemini (resp : Except String String) (paper : Paper) : ScoredEntry :=
  match resp with
  | .error msg => ⟨paper, defaultScores msg, 5⟩
  | .ok content =>
    match json_loads (pyStrip content) with
    | .error msg => ⟨paper, defaultScores msg, 5⟩
    | .ok scores =>
      match weightedTotal SCORING_WEIGHTS scores with
      | .error msg => ⟨paper, defaultScores msg, 5⟩
      | .ok w => ⟨paper, scores, w⟩

/-- The scored list before sorting: the loop appends exactly one entry per
input paper, in input order; the oracle is indexed by the paper's position
(each paper gets its own external call). -/
def groq_scored_unsorted (oracle : Nat → Except String String) (papers : List Paper) :
    List ScoredEntry :=
  papers.enum.map fun ip => score_one_groq (oracle ip.1) ip.2

/-- Gemini counterpart of `groq_scored_unsorted`. -/
def gemini_scored_unsorted (oracle : Nat → Except String String) (papers : List Paper) :
    List ScoredEntry :=
  papers.enum.map fun ip => score_one_gemini (oracle ip.1) ip.2

/-- Python's `list.sort(key=lambda x: x[...total_score], reverse=True)`:
a stable sort, descending on the total score (Timsort modelled by the
equally stable merge sort). -/
def sortByScoreDesc (l : List ScoredEntry) : List ScoredEntry :=
  l.mergeSort fun a b => decide (b.total_score ≤ a.total_score)

/-- `PaperScorer.score_with_groq` (lines 49–112): score every paper, then
sort by total score descending. -/
def score_with_groq (oracle : Nat → Except String String) (papers : List Paper) :
    List ScoredEntry :=
  sortByScoreDesc (groq_scored_unsorted oracle papers)

/-- `PaperScorer.score_with_gemini` (lines 114–190). -/
def score_with_gemini (oracle : Nat → Except String String) (papers : List Paper) :
    List ScoredEntry :=
  sortByScoreDesc (gemini_scored_unsorted oracle papers)

/-! ### `agent_debate.py`: the debate protocol

The three external calls a debate makes — the Groq round-1 argument call,
the Gemini round-2 argument call, and the Gemini arbiter call — are
modelled by one oracle response each.  Each call site is consulted exactly
once per run (there is no retry in the source), so a per-call response
value covers every backend behaviour. -/

/-- The behaviour of the external backends during one debate: for each of
the three call sites, either a raised exception (`.error`, carrying the
message) or the raw response text (`.ok`). -/
structure Backends where
  groqArgue : Except String String
  geminiArgue : Except String String
  arbiter : Except String String

/-- One entry of `debate_history`: an argument string (rounds 1–2) or the
decision dict (round 3). -/
inductive TurnContent where
  | argument (text : String) : TurnContent
  | decision (d : Json) : TurnContent

/-- One debate turn as appended to `debate_history`. -/
structure DebateTurn where
  agent : String
  round : Nat
  content : TurnContent

/-- The dict returned by `select_final_paper`: the selected paper's fields,
`selection_method`, `debate_history`, and — only on the debate path — the
`final_decision` dict. -/
structure SelectionResult where
  paper : Candidate
  selection_method : String
  debate_history : List DebateTurn
  final_decision : Option Json

/-- `AgentDebate._groq_present_case` (lines 128–170): one Groq call; on
success the stripped message content is the argument, and on any exception
the deterministic fallback argument built from the candidate's own
reasoning is returned instead.  The opponent candidate appears only in the
prompt. -/
def groq_present_case (resp : Except String String) (groq_choice gemini_choice : Candidate) :
    String :=
  match resp with
  | .ok content => pyStrip content
  | .error _ => "I believe my paper is superior due to " ++ groq_choice.reasoning

/-- `AgentDebate._gemini_present_case` (lines 172–233): one Gemini call;
the same fallback-on-exception policy, seeded from the Gemini candidate's
own reasoning.  The opponent candidate and the round-1 argument appear
only in the prompt. -/
def gemini_present_case (resp : Except String String)
    (gemini_choice groq_choice : Candidate) (groq_argument : String) : String :=
  match resp with
  | .ok content => pyStrip content
  | .error _ => "My paper is superior because " ++ gemini_choice.reasoning

/-- The score-comparison fallback decision of `_make_final_decision`
(lines 324–337): Groq's candidate wins on `groq_total_score >=
gemini_total_score`, Gemini's otherwise; confidence is `medium` and the
reasoning is the fixed diagnostic string. -/
def scoreFallbackDecision (groq_choice gemini_choice : Candidate) : Json :=
  if gemini_choice.total_score ≤ groq_choice.total_score then
    Json.obj [("selected", .str "groq"),
              ("reasoning", .str "Selected based on higher score after debate error."),
              ("confidence", .str "medium")]
  else
    Json.obj [("selected", .str "gemini"),
              ("reasoning", .str "Selected based on higher score after debate error."),
              ("confidence", .str "medium")]

/-- `AgentDebate._make_final_decision` (lines 235–337): one arbiter call;
on success, strip any markdown fence from the response text and parse it
with `json.loads`, returning whatever value parses (the shape is not
validated); any exception — the call raising, or the parse failing — is
caught and the score-comparison fallback is returned.  The candidates'
arguments appear only in the prompt. -/
def make_final_decision (resp : Except String String)
    (groq_choice gemini_choice : Candidate) (groq_argument gemini_argument : String) : Json :=
  match resp with
  | .ok content =>
    match json_loads (stripCodeFence content) with
    | .ok decision => decision
    | .error _ => scoreFallbackDecision groq_choice gemini_choice
  | .error _ => scoreFallbackDecision groq_choice gemini_choice

/-- Python's `x == 'groq'` on a parsed JSON value: true only for the exact
string; a non-string value compares unequal without raising. -/
def jsonEqPyStr (j : Json) (s : String) : Bool :=
  match j with
  | .str t => t = s
  | _ => false

/-- Python's `x[:200]` succeeds on the sliceable parsed values (strings and
lists); on anything else it raises `TypeError`. -/
def jsonSliceable : Json → Bool
  | .str _ => true
  | .arr _ => true
  | _ => false

/-- The `debate_history` list built by the debate path of
`select_final_paper` (lines 75–109): the Groq round-1 argument turn, the
Gemini round-2 argument turn, and the Consensus round-3 decision turn, in
order. -/
def debate_history_of (b : Backends) (groq_top gemini_top : Candidate) : List DebateTurn :=
  let groq_argument := groq_present_case b.groqArgue groq_top gemini_top
  let gemini_argument := gemini_present_case b.geminiArgue gemini_top groq_top groq_argument
  let final_decision :=
    make_final_decision b.arbiter groq_top gemini_top groq_argument gemini_argument
  [⟨"Groq", 1, .argument groq_argument⟩,
   ⟨"Gemini", 2, .argument gemini_argument⟩,
   ⟨"Consensus", 3, .decision final_decision⟩]

/-- `AgentDebate.select_final_paper` (lines 43–126).  `groq_papers[0]` on an
empty list raises `IndexError`.  Equal top `arxiv_id`s short-circuit to the
unanimous result before any external call.  Otherwise the three debate
rounds run; the decision dict is then consumed dynamically:
`final_decision['selected']` (line 112) raises on a non-dict value or a
missing key, and `final_decision['reasoning'][:200]` (line 120) raises on a
missing key or an unsliceable value — those exceptions propagate out of the
method.  An `.error` result is a raised exception with its message. -/
def select_final_paper (b : Backends) (groq_papers gemini_papers : List Candidate) :
    Except String SelectionResult :=
  match groq_papers, gemini_papers with
  | [], _ => .error "IndexError: list index out of range"
  | _ :: _, [] => .error "IndexError: list index out of range"
  | groq_top :: _, gemini_top :: _ =>
    if groq_top.arxiv_id = gemini_top.arxiv_id then
      .ok ⟨groq_top, "unanimous", [], none⟩
    else
      let groq_argument := groq_present_case b.groqArgue groq_top gemini_top
      let gemini_argument := gemini_present_case b.geminiArgue gemini_top groq_top groq_argument
      let final_decision :=
        make_final_decision b.arbiter groq_top gemini_top groq_argument gemini_argument
      let debate_history : List DebateTurn :=
        [⟨"Groq", 1, .argument groq_argument⟩,
         ⟨"Gemini", 2, .argument gemini_argument⟩,
         ⟨"Consensus", 3, .decision final_decision⟩]
      match final_decision.getField "selected" with
      | none => .error "KeyError or TypeError: selected"
      | some sel =>
        let selected_paper := if jsonEqPyStr sel "groq" then groq_top else gemini_top
        match final_decision.getField "reasoning" with
        | none => .error "KeyError or TypeError: reasoning"
        | some r =>
          if jsonSliceable r then
            .ok ⟨selected_paper, "debate", debate_history, some final_decision⟩
          else
            .error "TypeError: unsliceable reasoning"

/-! ### Failure predicates and helper lemmas -/

/-- The adjudication call "fails" in the sense of §4.3: the arbiter client
call raises, or the fence-stripped payload is not valid JSON. -/
def adjudicationFails (resp : Except String String) : Prop :=
  (∃ e, resp = .error e) ∨
  (∃ text e, resp = .ok text ∧ json_loads (stripCodeFence text) = .error e)

/-- On any adjudication failure the score-comparison fallback is returned. -/
theorem make_final_decision_of_fails (resp : Except String String)
    (gA gB : Candidate) (a₁ a₂ : String) (h : adjudicationFails resp) :
    make_final_decision resp gA gB a₁ a₂ = scoreFallbackDecision gA gB := by
  rcases h with ⟨e, rfl⟩ | ⟨t, e, rfl, hp⟩
  · rfl
  · simp [make_final_decision, hp]

/-- The fallback decision dict always carries the three documented fields. -/
theorem scoreFallbackDecision_fields (gA gB : Candidate) :
    (scoreFallbackDecision gA gB).getField "selected" =
      some (.str (if gB.total_score ≤ gA.total_score then "groq" else "gemini")) ∧
    (scoreFallbackDecision gA gB).getField "reasoning" =
      some (.str "Selected based on higher score after debate error.") ∧
    (scoreFallbackDecision gA gB).getField "confidence" = some (.str "medium") := by
  unfold scoreFallbackDecision
  by_cases h : gB.total_score ≤ gA.total_score <;>
    simp [h, Json.getField, lookupLast]

/-- `jsonEqPyStr` holds exactly on the equal string value. -/
theorem jsonEqPyStr_iff (j : Json) (s : String) :
    jsonEqPyStr j s = true ↔ j = .str s := by
  cases j <;> simp [jsonEqPyStr]

/-! ### The claims -/

/-- C3: for every pair of non-empty scored lists whose top papers have the
same identifier, `select_final_paper` returns the unanimous result — method
`"unanimous"`, empty transcript, no attached decision, carrying the (Groq)
top paper — and the result is independent of the backends' behaviour (no
external call influences it). -/
theorem C3_unanimous_short_circuit (b b₂ : Backends) (gA gB : Candidate)
    (restA restB : List Candidate) (hid : gA.arxiv_id = gB.arxiv_id) :
    select_final_paper b (gA :: restA) (gB :: restB) =
      .ok ⟨gA, "unanimous", [], none⟩ ∧
    select_final_paper b (gA :: restA) (gB :: restB) =
      select_final_paper b₂ (gA :: restA) (gB :: restB) := by
  constructor <;> simp [select_final_paper, hid]

/-- Witness for C3 at concrete inputs: two different backend behaviours,
the same top id on both lists. -/
theorem C3_unanimous_short_circuit_witness :
    (Candidate.mk "2401.1" "T1" "A1" 5 "r1").arxiv_id =
      (Candidate.mk "2401.1" "T2" "A2" 6 "r2").arxiv_id ∧
    (select_final_paper ⟨.error "x", .error "y", .error "z"⟩
        [⟨"2401.1", "T1", "A1", 5, "r1"⟩] [⟨"2401.1", "T2", "A2", 6, "r2"⟩] =
      .ok ⟨⟨"2401.1", "T1", "A1", 5, "r1"⟩, "unanimous", [], none⟩ ∧
     select_final_paper ⟨.error "x", .error "y", .error "z"⟩
        [⟨"2401.1", "T1", "A1", 5, "r1"⟩] [⟨"2401.1", "T2", "A2", 6, "r2"⟩] =
      select_final_paper ⟨.ok "argue", .ok "counter", .ok "\x7b\x7d"⟩
        [⟨"2401.1", "T1", "A1", 5, "r1"⟩] [⟨"2401.1", "T2", "A2", 6, "r2"⟩]) :=
  ⟨rfl, C3_unanimous_short_circuit ⟨.error "x", .error "y", .error "z"⟩
    ⟨.ok "argue", .ok "counter", .ok "\x7b\x7d"⟩ _ _ _ _ rfl⟩

/-- C7: when the adjudication call fails and the two candidates' total
scores are exactly equal, the fallback decision selects the Groq-backed
candidate (the `>=` comparison in `_make_final_decision` line 326 favours
Groq on ties). -/
theorem C7_equal_score_tie_favours_groq (resp : Except String String)
    (gA gB : Candidate) (a₁ a₂ : String)
    (hfail : adjudicationFails resp) (heq : gA.total_score = gB.total_score) :
    make_final_decision resp gA gB a₁ a₂ =
      Json.obj [("selected", .str "groq"),
                ("reasoning", .str "Selected based on higher score after debate error."),
                ("confidence", .str "medium")] := by
  rw [make_final_decision_of_fails resp gA gB a₁ a₂ hfail]
  simp [scoreFallbackDecision, heq]

/-- Witness for C7: a raised arbiter call, both totals 7. -/
theorem C7_equal_score_tie_favours_groq_witness :
    adjudicationFails (.error "boom") ∧
    (Candidate.mk "idA" "TA" "aA" 7 "rA").total_score =
      (Candidate.mk "idB" "TB" "aB" 7 "rB").total_score ∧
    make_final_decision (.error "boom") ⟨"idA", "TA", "aA", 7, "rA"⟩
        ⟨"idB", "TB", "aB", 7, "rB"⟩ "argA" "argB" =
      Json.obj [("selected", .str "groq"),
                ("reasoning", .str "Selected based on higher score after debate error."),
                ("confidence", .str "medium")] :=
  ⟨Or.inl ⟨"boom", rfl⟩, rfl,
   C7_equal_score_tie_favours_groq (.error "boom") ⟨"idA", "TA", "aA", 7, "rA"⟩
     ⟨"idB", "TB", "aB", 7, "rB"⟩ "argA" "argB" (Or.inl ⟨"boom", rfl⟩) rfl⟩

/-- C2: for distinct top candidates, if the adjudication fails (call raises
or payload unparseable) and the totals differ, the decision attached to the
result is the fallback that selects the strictly-higher-scoring candidate
with `medium` confidence and the fixed diagnostic reasoning, and the
returned result carries that candidate's paper. -/
theorem C2_adjudication_fallback_prefers_higher_score (b : Backends)
    (gA gB : Candidate) (restA restB : List Candidate)
    (hid : gA.arxiv_id ≠ gB.arxiv_id)
    (hfail : adjudicationFails b.arbiter)
    (hne : gA.total_score ≠ gB.total_score) :
    select_final_paper b (gA :: restA) (gB :: restB) =
      .ok ⟨(if gB.total_score < gA.total_score then gA else gB), "debate",
           debate_history_of b gA gB,
           some (Json.obj
             [("selected", .str (if gB.total_score < gA.total_score then "groq" else "gemini")),
              ("reasoning", .str "Selected based on higher score after debate error."),
              ("confidence", .str "medium")])⟩ := by
  have hdec := make_final_decision_of_fails b.arbiter gA gB
    (groq_present_case b.groqArgue gA gB)
    (gemini_present_case b.geminiArgue gB gA (groq_present_case b.groqArgue gA gB)) hfail
  rcases lt_or_gt_of_ne hne with hlt | hgt
  · have h₁ : ¬ gB.total_score ≤ gA.total_score := not_le.mpr hlt
    have h₂ : ¬ gB.total_score < gA.total_score := not_lt.mpr (le_of_lt hlt)
    simp only [select_final_paper, debate_history_of, hid, if_false, ite_false, hdec]
    simp [scoreFallbackDecision, h₁, h₂, Json.getField, lookupLast, jsonEqPyStr, jsonSliceable]
  · have h₁ : gB.total_score ≤ gA.total_score := le_of_lt hgt
    simp only [select_final_paper, debate_history_of, hid, if_false, ite_false, hdec]
    simp [scoreFallbackDecision, h₁, hgt, Json.getField, lookupLast, jsonEqPyStr, jsonSliceable]

/-- Witness for C2: totals 8.4 vs 7.1, arbiter call raises; the Groq
candidate's paper is carried. -/
theorem C2_adjudication_fallback_prefers_higher_score_witness :
    (Candidate.mk "idA" "X" "aA" (Rat.divInt 42 5) "rA").arxiv_id ≠
      (Candidate.mk "idB" "Y" "aB" (Rat.divInt 71 10) "rB").arxiv_id ∧
    adjudicationFails (Backends.mk (.error "e1") (.error "e2") (.error "e3")).arbiter ∧
    (Candidate.mk "idA" "X" "aA" (Rat.divInt 42 5) "rA").total_score ≠
      (Candidate.mk "idB" "Y" "aB" (Rat.divInt 71 10) "rB").total_score ∧
    select_final_paper ⟨.error "e1", .error "e2", .error "e3"⟩
        [⟨"idA", "X", "aA", Rat.divInt 42 5, "rA"⟩]
        [⟨"idB", "Y", "aB", Rat.divInt 71 10, "rB"⟩] =
      .ok ⟨(if (Rat.divInt 71 10 : Rat) < Rat.divInt 42 5
              then Candidate.mk "idA" "X" "aA" (Rat.divInt 42 5) "rA"
              else Candidate.mk "idB" "Y" "aB" (Rat.divInt 71 10) "rB"), "debate",
           debate_history_of ⟨.error "e1", .error "e2", .error "e3"⟩
             ⟨"idA", "X", "aA", Rat.divInt 42 5, "rA"⟩
             ⟨"idB", "Y", "aB", Rat.divInt 71 10, "rB"⟩,
           some (Json.obj
             [("selected", .str (if (Rat.divInt 71 10 : Rat) < Rat.divInt 42 5
                                   then "groq" else "gemini")),
              ("reasoning", .str "Selected based on higher score after debate error."),
              ("confidence", .str "medium")])⟩ :=
  ⟨by decide, Or.inl ⟨"e3", rfl⟩, by decide,
   C2_adjudication_fallback_prefers_higher_score ⟨.error "e1", .error "e2", .error "e3"⟩
     ⟨"idA", "X", "aA", Rat.divInt 42 5, "rA"⟩ ⟨"idB", "Y", "aB", Rat.divInt 71 10, "rB"⟩
     [] [] (by decide) (Or.inl ⟨"e3", rfl⟩) (by decide)⟩

/-- C10: in the final mapping from the decision dict to a paper, only the
exact string value `"groq"` in the `selected` field selects the Groq
candidate; every other parsed value — `"gemini"`, any misspelled label, or
a non-string — selects the Gemini candidate's paper. -/
theorem C10_only_exact_groq_string_selects_groq (b : Backends)
    (gA gB : Candidate) (restA restB : List Candidate)
    (fields : List (String × Json)) (t : String) (sel r : Json)
    (hid : gA.arxiv_id ≠ gB.arxiv_id)
    (ht : b.arbiter = .ok t)
    (hp : json_loads (stripCodeFence t) = .ok (Json.obj fields))
    (hsel : lookupLast "selected" fields = some sel)
    (hr : lookupLast "reasoning" fields = some r)
    (hslice : jsonSliceable r = true) :
    (sel ≠ .str "groq" →
      select_final_paper b (gA :: restA) (gB :: restB) =
        .ok ⟨gB, "debate", debate_history_of b gA gB, some (Json.obj fields)⟩) ∧
    (sel = .str "groq" →
      select_final_paper b (gA :: restA) (gB :: restB) =
        .ok ⟨gA, "debate", debate_history_of b gA gB, some (Json.obj fields)⟩) := by
  have hdec : make_final_decision b.arbiter gA gB
      (groq_present_case b.groqArgue gA gB)
      (gemini_present_case b.geminiArgue gB gA (groq_present_case b.groqArgue gA gB)) =
      Json.obj fields := by
    simp [make_final_decision, ht, hp]
  constructor
  · intro hneq
    have : jsonEqPyStr sel "groq" = false := by
      rcases h : jsonEqPyStr sel "groq" with _ | _
      · rfl
      · exact absurd ((jsonEqPyStr_iff sel "groq").mp h) hneq
    simp only [select_final_paper, debate_history_of, hid, if_false, ite_false, hdec]
    simp [Json.getField, hsel, hr, hslice, this]
  · intro heq
    have : jsonEqPyStr sel "groq" = true := (jsonEqPyStr_iff sel "groq").mpr heq
    simp only [select_final_paper, debate_history_of, hid, if_false, ite_false, hdec]
    simp [Json.getField, hsel, hr, hslice, this]

/-- Witness for C10: the arbiter answers with the misspelled label
`"groqq"`; the Gemini candidate's paper is selected. -/
theorem C10_only_exact_groq_string_selects_groq_witness :
    (Candidate.mk "idA" "TA" "aA" 8 "rA").arxiv_id ≠
      (Candidate.mk "idB" "TB" "aB" 7 "rB").arxiv_id ∧
    (Backends.mk (.error "e1") (.error "e2")
        (.ok "\x7b\"selected\": \"groqq\", \"reasoning\": \"why\", \"confidence\": \"low\"\x7d")).arbiter =
      .ok "\x7b\"selected\": \"groqq\", \"reasoning\": \"why\", \"confidence\": \"low\"\x7d" ∧
    json_loads (stripCodeFence
        "\x7b\"selected\": \"groqq\", \"reasoning\": \"why\", \"confidence\": \"low\"\x7d") =
      .ok (Json.obj [("selected", .str "groqq"), ("reasoning", .str "why"),
                     ("confidence", .str "low")]) ∧
    (Json.str "groqq" ≠ Json.str "groq") ∧
    select_final_paper
        ⟨.error "e1", .error "e2",
         .ok "\x7b\"selected\": \"groqq\", \"reasoning\": \"why\", \"confidence\": \"low\"\x7d"⟩
        [⟨"idA", "TA", "aA", 8, "rA"⟩] [⟨"idB", "TB", "aB", 7, "rB"⟩] =
      .ok ⟨⟨"idB", "TB", "aB", 7, "rB"⟩, "debate",
           debate_history_of
             ⟨.error "e1", .error "e2",
              .ok "\x7b\"selected\": \"groqq\", \"reasoning\": \"why\", \"confidence\": \"low\"\x7d"⟩
             ⟨"idA", "TA", "aA", 8, "rA"⟩ ⟨"idB", "TB", "aB", 7, "rB"⟩,
           some (Json.obj [("selected", .str "groqq"), ("reasoning", .str "why"),
                           ("confidence", .str "low")])⟩ :=
  ⟨by decide, rfl, rfl, by simp,
   (C10_only_exact_groq_string_selects_groq
      ⟨.error "e1", .error "e2",
       .ok "\x7b\"selected\": \"groqq\", \"reasoning\": \"why\", \"confidence\": \"low\"\x7d"⟩
      ⟨"idA", "TA", "aA", 8, "rA"⟩ ⟨"idB", "TB", "aB", 7, "rB"⟩ [] []
      [("selected", .str "groqq"), ("reasoning", .str "why"), ("confidence", .str "low")]
      "\x7b\"selected\": \"groqq\", \"reasoning\": \"why\", \"confidence\": \"low\"\x7d"
      (.str "groqq") (.str "why") (by decide) rfl rfl rfl rfl rfl).1
   (by simp)⟩

/-- C9: if the evaluator call of debate round 1 (resp. round 2) fails, that
round's argument is the deterministic fallback string built from that
round's own candidate's reasoning field, and the debate continues — the
transcript still contains the round-2 and round-3 turns.  No retry exists:
each round consults its single oracle response once, so the fallback is a
pure function of the candidate's reasoning. -/
theorem C9_argument_fallback_continues_debate (b : Backends) (gA gB : Candidate) :
    (∀ e, b.groqArgue = .error e →
      groq_present_case b.groqArgue gA gB =
        "I believe my paper is superior due to " ++ gA.reasoning ∧
      (debate_history_of b gA gB)[0]? =
        some ⟨"Groq", 1, .argument ("I believe my paper is superior due to " ++ gA.reasoning)⟩ ∧
      ((debate_history_of b gA gB)[1]?.map DebateTurn.round = some 2 ∧
       (debate_history_of b gA gB)[2]?.map DebateTurn.round = some 3)) ∧
    (∀ e, b.geminiArgue = .error e →
      gemini_present_case b.geminiArgue gB gA (groq_present_case b.groqArgue gA gB) =
        "My paper is superior because " ++ gB.reasoning ∧
      (debate_history_of b gA gB)[1]? =
        some ⟨"Gemini", 2, .argument ("My paper is superior because " ++ gB.reasoning)⟩ ∧
      (debate_history_of b gA gB)[2]?.map DebateTurn.round = some 3) := by
  constructor
  · intro e he
    refine ⟨?_, ?_, ?_, ?_⟩ <;> simp [debate_history_of, groq_present_case, he]
  · intro e he
    refine ⟨?_, ?_, ?_⟩ <;> simp [debate_history_of, gemini_present_case, he]

/-- Witness for C9: both argument calls raise. -/
theorem C9_argument_fallback_continues_debate_witness :
    ((Backends.mk (.error "t1") (.error "t2") (.ok "x")).groqArgue = .error "t1" →
      groq_present_case (Backends.mk (.error "t1") (.error "t2") (.ok "x")).groqArgue
          ⟨"idA", "TA", "aA", 8, "rA"⟩ ⟨"idB", "TB", "aB", 7, "rB"⟩ =
        "I believe my paper is superior due to " ++ "rA" ∧
      (debate_history_of ⟨.error "t1", .error "t2", .ok "x"⟩
          ⟨"idA", "TA", "aA", 8, "rA"⟩ ⟨"idB", "TB", "aB", 7, "rB"⟩)[0]? =
        some ⟨"Groq", 1, .argument ("I believe my paper is superior due to " ++ "rA")⟩ ∧
      ((debate_history_of ⟨.error "t1", .error "t2", .ok "x"⟩
          ⟨"idA", "TA", "aA", 8, "rA"⟩ ⟨"idB", "TB", "aB", 7, "rB"⟩)[1]?.map DebateTurn.round =
        some 2 ∧
       (debate_history_of ⟨.error "t1", .error "t2", .ok "x"⟩
          ⟨"idA", "TA", "aA", 8, "rA"⟩ ⟨"idB", "TB", "aB", 7, "rB"⟩)[2]?.map DebateTurn.round =
        some 3)) ∧
    ((Backends.mk (.error "t1") (.error "t2") (.ok "x")).geminiArgue = .error "t2" →
      gemini_present_case (Backends.mk (.error "t1") (.error "t2") (.ok "x")).geminiArgue
          ⟨"idB", "TB", "aB", 7, "rB"⟩ ⟨"idA", "TA", "aA", 8, "rA"⟩
          (groq_present_case (Backends.mk (.error "t1") (.error "t2") (.ok "x")).groqArgue
            ⟨"idA", "TA", "aA", 8, "rA"⟩ ⟨"idB", "TB", "aB", 7, "rB"⟩) =
        "My paper is superior because " ++ "rB" ∧
      (debate_history_of ⟨.error "t1", .error "t2", .ok "x"⟩
          ⟨"idA", "TA", "aA", 8, "rA"⟩ ⟨"idB", "TB", "aB", 7, "rB"⟩)[1]? =
        some ⟨"Gemini", 2, .argument ("My paper is superior because " ++ "rB")⟩ ∧
      (debate_history_of ⟨.error "t1", .error "t2", .ok "x"⟩
          ⟨"idA", "TA", "aA", 8, "rA"⟩ ⟨"idB", "TB", "aB", 7, "rB"⟩)[2]?.map DebateTurn.round =
        some 3) :=
  ⟨fun h => (C9_argument_fallback_continues_debate ⟨.error "t1", .error "t2", .ok "x"⟩
      ⟨"idA", "TA", "aA", 8, "rA"⟩ ⟨"idB", "TB", "aB", 7, "rB"⟩).1 "t1" h,
   fun h => (C9_argument_fallback_continues_debate ⟨.error "t1", .error "t2", .ok "x"⟩
      ⟨"idA", "TA", "aA", 8, "rA"⟩ ⟨"idB", "TB", "aB", 7, "rB"⟩).2 "t2" h⟩

/-- The exact three-field Decision shape documented in the spec: an object
whose keys are exactly `selected` (a string in `{groq, gemini}`),
`reasoning` and `confidence`. -/
def isWellFormedDecision (j : Json) : Bool :=
  match j with
  | .obj fields =>
    (match lookupLast "selected" fields with
     | some (.str s) => s = "groq" || s = "gemini"
     | _ => false) &&
    (match lookupLast "reasoning" fields with
     | some (.str _) => true
     | _ => false) &&
    (match lookupLast "confidence" fields with
     | some (.str _) => true
     | _ => false) &&
    fields.all fun kv => kv.1 = "selected" || kv.1 = "reasoning" || kv.1 = "confidence"
  | _ => false

/-- Counterexample to C1 as stated: the arbiter response `{"answer": 1}` is
valid JSON without the three-field shape; `_make_final_decision` returns
the parsed object as the decision — neither a well-formed Decision nor the
score-comparison fallback.  (`json.loads` succeeds, so no exception is
raised and the fallback branch is not taken.) -/
theorem C1_counterexample :
    make_final_decision (.ok "\x7b\"answer\": 1\x7d")
        ⟨"idA", "TA", "aA", 8, "rA"⟩ ⟨"idB", "TB", "aB", 7, "rB"⟩ "argA" "argB" =
      Json.obj [("answer", .num 1)] ∧
    isWellFormedDecision (Json.obj [("answer", .num 1)]) = false ∧
    Json.obj [("answer", .num 1)] ≠
      scoreFallbackDecision ⟨"idA", "TA", "aA", 8, "rA"⟩ ⟨"idB", "TB", "aB", 7, "rB"⟩ :=
  ⟨rfl, rfl, by
    rw [show scoreFallbackDecision ⟨"idA", "TA", "aA", 8, "rA"⟩ ⟨"idB", "TB", "aB", 7, "rB"⟩ =
      Json.obj [("selected", .str "groq"),
                ("reasoning", .str "Selected based on higher score after debate error."),
                ("confidence", .str "medium")] from rfl]
    simp⟩

/-- C1 (amended): the adjudication step never raises — it is a total
function of the response — but it does not validate the three-field shape:
for every arbiter behaviour it either returns whatever JSON value the
fence-stripped response body parses to, or, exactly when the call raised or
the body fails to parse, the score-comparison fallback (which selects by
the `>=` total-score comparison with `medium` confidence). -/
theorem C1_adjudication_total_parse_or_fallback (resp : Except String String)
    (gA gB : Candidate) (a₁ a₂ : String) :
    (∃ text j, resp = .ok text ∧ json_loads (stripCodeFence text) = .ok j ∧
       make_final_decision resp gA gB a₁ a₂ = j) ∨
    (adjudicationFails resp ∧
     make_final_decision resp gA gB a₁ a₂ = scoreFallbackDecision gA gB ∧
     (scoreFallbackDecision gA gB).getField "selected" =
       some (.str (if gB.total_score ≤ gA.total_score then "groq" else "gemini")) ∧
     (scoreFallbackDecision gA gB).getField "confidence" = some (.str "medium")) := by
  match h : resp with
  | .error e =>
    exact Or.inr ⟨Or.inl ⟨e, rfl⟩, rfl,
      (scoreFallbackDecision_fields gA gB).1, (scoreFallbackDecision_fields gA gB).2.2⟩
  | .ok text =>
    match hp : json_loads (stripCodeFence text) with
    | .ok j =>
      exact Or.inl ⟨text, j, rfl, hp, by simp [make_final_decision, hp]⟩
    | .error e =>
      refine Or.inr ⟨Or.inr ⟨text, e, rfl, hp⟩, ?_,
        (scoreFallbackDecision_fields gA gB).1, (scoreFallbackDecision_fields gA gB).2.2⟩
      simp [make_final_decision, hp]

/-- A parsed decision payload on which the dynamic accesses of
`select_final_paper` succeed: `['selected']` finds a value and
`['reasoning'][:200]` finds a sliceable value. -/
def decisionAccessible (j : Json) : Prop :=
  (∃ sel, j.getField "selected" = some sel) ∧
  (∃ r, j.getField "reasoning" = some r ∧ jsonSliceable r = true)

/-- Counterexample to C4 as stated: with distinct top ids, the arbiter call
can succeed with the valid-JSON payload `42`; `_make_final_decision`
returns `42`, and `select_final_paper` then raises `TypeError` at
`final_decision['selected']` instead of returning a 3-turn debate result. -/
theorem C4_counterexample :
    select_final_paper ⟨.error "e1", .error "e2", .ok "42"⟩
        [⟨"idA", "TA", "aA", 8, "rA"⟩] [⟨"idB", "TB", "aB", 7, "rB"⟩] =
      .error "KeyError or TypeError: selected" := rfl

/-- C4 (amended): for distinct top candidates, and any backend behaviour in
which the arbiter either fails (call raises or payload unparseable — the
fallback then applies) or returns a payload parsing to an object on which
the `selected`/`reasoning` accesses succeed, `select_final_paper` returns a
result with method `"debate"`, a transcript of exactly the three turns in
order (Groq round-1 argument, Gemini round-2 argument, Consensus round-3
decision), and a non-null decision attached. -/
theorem C4_debate_three_turns (b : Backends) (gA gB : Candidate)
    (restA restB : List Candidate)
    (hid : gA.arxiv_id ≠ gB.arxiv_id)
    (hacc : ∀ text j, b.arbiter = .ok text → json_loads (stripCodeFence text) = .ok j →
      decisionAccessible j) :
    ∃ res : SelectionResult,
      select_final_paper b (gA :: restA) (gB :: restB) = .ok res ∧
      res.selection_method = "debate" ∧
      res.debate_history =
        [⟨"Groq", 1, .argument (groq_present_case b.groqArgue gA gB)⟩,
         ⟨"Gemini", 2, .argument (gemini_present_case b.geminiArgue gB gA
            (groq_present_case b.groqArgue gA gB))⟩,
         ⟨"Consensus", 3, .decision (make_final_decision b.arbiter gA gB
            (groq_present_case b.groqArgue gA gB)
            (gemini_present_case b.geminiArgue gB gA
              (groq_present_case b.groqArgue gA gB)))⟩] ∧
      res.final_decision = some (make_final_decision b.arbiter gA gB
        (groq_present_case b.groqArgue gA gB)
        (gemini_present_case b.geminiArgue gB gA
          (groq_present_case b.groqArgue gA gB))) := by
  set a₁ := groq_present_case b.groqArgue gA gB with ha₁
  set a₂ := gemini_present_case b.geminiArgue gB gA a₁ with ha₂
  have hdec : decisionAccessible (make_final_decision b.arbiter gA gB a₁ a₂) := by
    match h : b.arbiter with
    | .error e =>
      rw [make_final_decision_of_fails (Except.error e) gA gB a₁ a₂ (Or.inl ⟨e, rfl⟩)]
      exact ⟨⟨_, (scoreFallbackDecision_fields gA gB).1⟩,
        ⟨_, (scoreFallbackDecision_fields gA gB).2.1, rfl⟩⟩
    | .ok text =>
      match hp : json_loads (stripCodeFence text) with
      | .ok j =>
        have heval : make_final_decision (Except.ok text) gA gB a₁ a₂ = j := by
          simp [make_final_decision, hp]
        rw [heval]
        exact hacc text j h hp
      | .error e =>
        rw [make_final_decision_of_fails (Except.ok text) gA gB a₁ a₂
          (Or.inr ⟨text, e, rfl, hp⟩)]
        exact ⟨⟨_, (scoreFallbackDecision_fields gA gB).1⟩,
          ⟨_, (scoreFallbackDecision_fields gA gB).2.1, rfl⟩⟩
  obtain ⟨⟨sel, hsel⟩, ⟨r, hr, hslice⟩⟩ := hdec
  refine ⟨⟨if jsonEqPyStr sel "groq" then gA else gB, "debate",
    [⟨"Groq", 1, .argument a₁⟩, ⟨"Gemini", 2, .argument a₂⟩,
     ⟨"Consensus", 3, .decision (make_final_decision b.arbiter gA gB a₁ a₂)⟩],
    some (make_final_decision b.arbiter gA gB a₁ a₂)⟩, ?_, rfl, rfl, rfl⟩
  simp only [select_final_paper, hid, ite_false, if_false, ← ha₁, ← ha₂]
  rw [hsel, hr]
  simp [hslice]

/-- Witness for C4: distinct ids, arbiter answering a fenced well-formed
decision payload. -/
theorem C4_debate_three_turns_witness :
    (Candidate.mk "idA" "TA" "aA" 8 "rA").arxiv_id ≠
      (Candidate.mk "idB" "TB" "aB" 7 "rB").arxiv_id ∧
    (∀ text j,
      (Backends.mk (.error "e1") (.error "e2")
        (.ok "```json\n\x7b\"selected\": \"gemini\", \"reasoning\": \"better\", \"confidence\": \"high\"\x7d\n```")).arbiter =
          .ok text →
      json_loads (stripCodeFence text) = .ok j → decisionAccessible j) ∧
    (∃ res : SelectionResult,
      select_final_paper
          ⟨.error "e1", .error "e2",
           .ok "```json\n\x7b\"selected\": \"gemini\", \"reasoning\": \"better\", \"confidence\": \"high\"\x7d\n```"⟩
          [⟨"idA", "TA", "aA", 8, "rA"⟩] [⟨"idB", "TB", "aB", 7, "rB"⟩] = .ok res ∧
      res.selection_method = "debate" ∧
      res.debate_history =
        [⟨"Groq", 1, .argument (groq_present_case (Except.error "e1")
            ⟨"idA", "TA", "aA", 8, "rA"⟩ ⟨"idB", "TB", "aB", 7, "rB"⟩)⟩,
         ⟨"Gemini", 2, .argument (gemini_present_case (Except.error "e2")
            ⟨"idB", "TB", "aB", 7, "rB"⟩ ⟨"idA", "TA", "aA", 8, "rA"⟩
            (groq_present_case (Except.error "e1")
              ⟨"idA", "TA", "aA", 8, "rA"⟩ ⟨"idB", "TB", "aB", 7, "rB"⟩))⟩,
         ⟨"Consensus", 3, .decision (make_final_decision
            (.ok "```json\n\x7b\"selected\": \"gemini\", \"reasoning\": \"better\", \"confidence\": \"high\"\x7d\n```")
            ⟨"idA", "TA", "aA", 8, "rA"⟩ ⟨"idB", "TB", "aB", 7, "rB"⟩
            (groq_present_case (Except.error "e1")
              ⟨"idA", "TA", "aA", 8, "rA"⟩ ⟨"idB", "TB", "aB", 7, "rB"⟩)
            (gemini_present_case (Except.error "e2")
              ⟨"idB", "TB", "aB", 7, "rB"⟩ ⟨"idA", "TA", "aA", 8, "rA"⟩
              (groq_present_case (Except.error "e1")
                ⟨"idA", "TA", "aA", 8, "rA"⟩ ⟨"idB", "TB", "aB", 7, "rB"⟩)))⟩] ∧
      res.final_decision = some (make_final_decision
        (.ok "```json\n\x7b\"selected\": \"gemini\", \"reasoning\": \"better\", \"confidence\": \"high\"\x7d\n```")
        ⟨"idA", "TA", "aA", 8, "rA"⟩ ⟨"idB", "TB", "aB", 7, "rB"⟩
        (groq_present_case (Except.error "e1")
          ⟨"idA", "TA", "aA", 8, "rA"⟩ ⟨"idB", "TB", "aB", 7, "rB"⟩)
        (gemini_present_case (Except.error "e2")
          ⟨"idB", "TB", "aB", 7, "rB"⟩ ⟨"idA", "TA", "aA", 8, "rA"⟩
          (groq_present_case (Except.error "e1")
            ⟨"idA", "TA", "aA", 8, "rA"⟩ ⟨"idB", "TB", "aB", 7, "rB"⟩)))) :=
  have hacc : ∀ text j,
      (Backends.mk (.error "e1") (.error "e2")
        (.ok "```json\n\x7b\"selected\": \"gemini\", \"reasoning\": \"better\", \"confidence\": \"high\"\x7d\n```")).arbiter =
          .ok text →
      json_loads (stripCodeFence text) = .ok j → decisionAccessible j := by
    intro text j h1 h2
    cases h1
    rw [show json_loads (stripCodeFence
        "```json\n\x7b\"selected\": \"gemini\", \"reasoning\": \"better\", \"confidence\": \"high\"\x7d\n```") =
        .ok (Json.obj [("selected", .str "gemini"), ("reasoning", .str "better"),
                       ("confidence", .str "high")]) from rfl] at h2
    cases h2
    exact ⟨⟨.str "gemini", rfl⟩, .str "better", rfl, rfl⟩
  ⟨by decide, hacc,
   C4_debate_three_turns
     ⟨.error "e1", .error "e2",
      .ok "```json\n\x7b\"selected\": \"gemini\", \"reasoning\": \"better\", \"confidence\": \"high\"\x7d\n```"⟩
     ⟨"idA", "TA", "aA", 8, "rA"⟩ ⟨"idB", "TB", "aB", 7, "rB"⟩ [] [] (by decide) hacc⟩

/-- Failure of the single Groq scoring call for one paper, in the sense of
§4.2: the client call raises, the payload does not parse as JSON, or the
parsed payload lacks a usable numeric value for some weighted criterion. -/
def groqScoringFails (resp : Except String String) : Prop :=
  (∃ e, resp = .error e) ∨
  (∃ text e, resp = .ok text ∧ json_loads (stripCodeFence text) = .error e) ∨
  (∃ text scores e, resp = .ok text ∧ json_loads (stripCodeFence text) = .ok scores ∧
    weightedTotal SCORING_WEIGHTS scores = .error e)

/-- Gemini counterpart of `groqScoringFails` (whitespace strip, no fence
stripping). -/
def geminiScoringFails (resp : Except String String) : Prop :=
  (∃ e, resp = .error e) ∨
  (∃ text e, resp = .ok text ∧ json_loads (pyStrip text) = .error e) ∨
  (∃ text scores e, resp = .ok text ∧ json_loads (pyStrip text) = .ok scores ∧
    weightedTotal SCORING_WEIGHTS scores = .error e)

/-- A failing Groq scoring call yields exactly the default-scored entry. -/
theorem score_one_groq_of_fails (resp : Except String String) (p : Paper)
    (h : groqScoringFails resp) :
    ∃ msg, score_one_groq resp p = ⟨p, defaultScores msg, 5⟩ := by
  rcases h with ⟨e, rfl⟩ | ⟨t, e, rfl, hp⟩ | ⟨t, s, e, rfl, hp, hw⟩
  · exact ⟨e, rfl⟩
  · exact ⟨e, by simp [score_one_groq, hp]⟩
  · exact ⟨e, by simp [score_one_groq, hp, hw]⟩

/-- A failing Gemini scoring call yields exactly the default-scored entry. -/
theorem score_one_gemini_of_fails (resp : Except String String) (p : Paper)
    (h : geminiScoringFails resp) :
    ∃ msg, score_one_gemini resp p = ⟨p, defaultScores msg, 5⟩ := by
  rcases h with ⟨e, rfl⟩ | ⟨t, e, rfl, hp⟩ | ⟨t, s, e, rfl, hp, hw⟩
  · exact ⟨e, rfl⟩
  · exact ⟨e, by simp [score_one_gemini, hp]⟩
  · exact ⟨e, by simp [score_one_gemini, hp, hw]⟩

/-- Entry `i` of the unsorted Groq run depends only on paper `i` and its own
oracle response. -/
theorem groq_scored_unsorted_getElem (oracle : Nat → Except String String)
    (papers : List Paper) (i : Nat) :
    (groq_scored_unsorted oracle papers)[i]? =
      (papers[i]?).map (score_one_groq (oracle i)) := by
  simp only [groq_scored_unsorted, List.getElem?_map, List.getElem?_enum]
  cases papers[i]? <;> simp

/-- Entry `i` of the unsorted Gemini run depends only on paper `i` and its
own oracle response. -/
theorem gemini_scored_unsorted_getElem (oracle : Nat → Except String String)
    (papers : List Paper) (i : Nat) :
    (gemini_scored_unsorted oracle papers)[i]? =
      (papers[i]?).map (score_one_gemini (oracle i)) := by
  simp only [gemini_scored_unsorted, List.getElem?_map, List.getElem?_enum]
  cases papers[i]? <;> simp

/-- C5: each scoring run returns exactly one scored paper per input paper;
entry `i` of the loop output is a function of paper `i` and its own oracle
response only (other papers' entries are unaffected by a failure); and
every paper whose call fails or whose payload cannot be scored receives the
deterministic default score dict — every criterion 5, diagnostic
`reasoning`, `overall_impression = "Unable to score"` — with total score
5.0.  Stated for both `score_with_groq` and `score_with_gemini`. -/
theorem C5_failure_isolation_and_length (oracle : Nat → Except String String)
    (papers : List Paper) :
    ((score_with_groq oracle papers).length = papers.length ∧
     (∀ i, (groq_scored_unsorted oracle papers)[i]? =
        (papers[i]?).map (score_one_groq (oracle i))) ∧
     (∀ i p, papers[i]? = some p → groqScoringFails (oracle i) →
       ∃ msg, (groq_scored_unsorted oracle papers)[i]? =
          some ⟨p, defaultScores msg, 5⟩ ∧
        (defaultScores msg).getField "problem_relevance" = some (.num 5) ∧
        (defaultScores msg).getField "dataset_quality" = some (.num 5) ∧
        (defaultScores msg).getField "model_novelty" = some (.num 5) ∧
        (defaultScores msg).getField "real_world_impact" = some (.num 5) ∧
        (defaultScores msg).getField "reasoning" =
          some (.str ("Error during scoring: " ++ msg)) ∧
        (defaultScores msg).getField "overall_impression" =
          some (.str "Unable to score"))) ∧
    ((score_with_gemini oracle papers).length = papers.length ∧
     (∀ i, (gemini_scored_unsorted oracle papers)[i]? =
        (papers[i]?).map (score_one_gemini (oracle i))) ∧
     (∀ i p, papers[i]? = some p → geminiScoringFails (oracle i) →
       ∃ msg, (gemini_scored_unsorted oracle papers)[i]? =
          some ⟨p, defaultScores msg, 5⟩ ∧
        (defaultScores msg).getField "problem_relevance" = some (.num 5) ∧
        (defaultScores msg).getField "dataset_quality" = some (.num 5) ∧
        (defaultScores msg).getField "model_novelty" = some (.num 5) ∧
        (defaultScores msg).getField "real_world_impact" = some (.num 5) ∧
        (defaultScores msg).getField "reasoning" =
          some (.str ("Error during scoring: " ++ msg)) ∧
        (defaultScores msg).getField "overall_impression" =
          some (.str "Unable to score"))) := by
  refine ⟨⟨?_, groq_scored_unsorted_getElem oracle papers, ?_⟩,
          ⟨?_, gemini_scored_unsorted_getElem oracle papers, ?_⟩⟩
  · simp [score_with_groq, sortByScoreDesc, groq_scored_unsorted]
  · intro i p hp hfail
    obtain ⟨msg, hmsg⟩ := score_one_groq_of_fails (oracle i) p hfail
    exact ⟨msg, by rw [groq_scored_unsorted_getElem, hp]; simp [hmsg],
      rfl, rfl, rfl, rfl, rfl, rfl⟩
  · simp [score_with_gemini, sortByScoreDesc, gemini_scored_unsorted]
  · intro i p hp hfail
    obtain ⟨msg, hmsg⟩ := score_one_gemini_of_fails (oracle i) p hfail
    exact ⟨msg, by rw [gemini_scored_unsorted_getElem, hp]; simp [hmsg],
      rfl, rfl, rfl, rfl, rfl, rfl⟩

/-- Witness for C5: a two-paper batch whose first call raises and whose
second call succeeds; the defaulted first entry and the length are checked
by instantiating the theorem. -/
theorem C5_failure_isolation_and_length_witness :
    ([Paper.mk "p0" "T0" "cs.LG" "a0", Paper.mk "p1" "T1" "cs.CV" "a1"][0]? =
      some (Paper.mk "p0" "T0" "cs.LG" "a0")) ∧
    groqScoringFails ((fun i => if i = 0 then Except.error "boom"
      else Except.ok "\x7b\"problem_relevance\": 8, \"dataset_quality\": 7, \"model_novelty\": 9, \"real_world_impact\": 6, \"reasoning\": \"good\", \"overall_impression\": \"nice\"\x7d") 0) ∧
    geminiScoringFails ((fun i => if i = 0 then Except.error "boom"
      else Except.ok "\x7b\"problem_relevance\": 8, \"dataset_quality\": 7, \"model_novelty\": 9, \"real_world_impact\": 6, \"reasoning\": \"good\", \"overall_impression\": \"nice\"\x7d") 0) ∧
    (score_with_groq
      (fun i => if i = 0 then Except.error "boom"
        else Except.ok "\x7b\"problem_relevance\": 8, \"dataset_quality\": 7, \"model_novelty\": 9, \"real_world_impact\": 6, \"reasoning\": \"good\", \"overall_impression\": \"nice\"\x7d")
      [Paper.mk "p0" "T0" "cs.LG" "a0", Paper.mk "p1" "T1" "cs.CV" "a1"]).length = 2 ∧
    (∃ msg, (groq_scored_unsorted
      (fun i => if i = 0 then Except.error "boom"
        else Except.ok "\x7b\"problem_relevance\": 8, \"dataset_quality\": 7, \"model_novelty\": 9, \"real_world_impact\": 6, \"reasoning\": \"good\", \"overall_impression\": \"nice\"\x7d")
      [Paper.mk "p0" "T0" "cs.LG" "a0", Paper.mk "p1" "T1" "cs.CV" "a1"])[0]? =
        some ⟨Paper.mk "p0" "T0" "cs.LG" "a0", defaultScores msg, 5⟩ ∧
      (defaultScores msg).getField "problem_relevance" = some (.num 5) ∧
      (defaultScores msg).getField "dataset_quality" = some (.num 5) ∧
      (defaultScores msg).getField "model_novelty" = some (.num 5) ∧
      (defaultScores msg).getField "real_world_impact" = some (.num 5) ∧
      (defaultScores msg).getField "reasoning" =
        some (.str ("Error during scoring: " ++ msg)) ∧
      (defaultScores msg).getField "overall_impression" =
        some (.str "Unable to score")) :=
  ⟨rfl, Or.inl ⟨"boom", rfl⟩, Or.inl ⟨"boom", rfl⟩,
   (C5_failure_isolation_and_length
     (fun i => if i = 0 then Except.error "boom"
       else Except.ok "\x7b\"problem_relevance\": 8, \"dataset_quality\": 7, \"model_novelty\": 9, \"real_world_impact\": 6, \"reasoning\": \"good\", \"overall_impression\": \"nice\"\x7d")
     [Paper.mk "p0" "T0" "cs.LG" "a0", Paper.mk "p1" "T1" "cs.CV" "a1"]).1.1,
   (C5_failure_isolation_and_length
     (fun i => if i = 0 then Except.error "boom"
       else Except.ok "\x7b\"problem_relevance\": 8, \"dataset_quality\": 7, \"model_novelty\": 9, \"real_world_impact\": 6, \"reasoning\": \"good\", \"overall_impression\": \"nice\"\x7d")
     [Paper.mk "p0" "T0" "cs.LG" "a0", Paper.mk "p1" "T1" "cs.CV" "a1"]).1.2.2 0
     (Paper.mk "p0" "T0" "cs.LG" "a0") rfl (Or.inl ⟨"boom", rfl⟩)⟩

/-- The Boolean comparator of the descending sort is transitive. -/
theorem scoreDescLe_trans (a b c : ScoredEntry)
    (hab : decide (b.total_score ≤ a.total_score) = true)
    (hbc : decide (c.total_score ≤ b.total_score) = true) :
    decide (c.total_score ≤ a.total_score) = true := by
  simp only [decide_eq_true_iff] at *
  exact le_trans hbc hab

/-- The Boolean comparator of the descending sort is total. -/
theorem scoreDescLe_total (a b : ScoredEntry) :
    (decide (b.total_score ≤ a.total_score) ||
     decide (a.total_score ≤ b.total_score)) = true := by
  simp only [Bool.or_eq_true, decide_eq_true_iff]
  exact (le_total b.total_score a.total_score)

/-- C6: each scoring run's output is a permutation of the per-paper loop
results, sorted by total score descending, and the sort is stable: any
subsequence of the loop output that is already non-increasing (in
particular, entries with equal totals in batch order) survives as a
subsequence of the sorted output.  Stated for both runs. -/
theorem C6_sorted_descending_stable (oracle : Nat → Except String String)
    (papers : List Paper) (hne : papers ≠ []) :
    ((score_with_groq oracle papers).Perm (groq_scored_unsorted oracle papers) ∧
     (score_with_groq oracle papers).Pairwise
       (fun a b => b.total_score ≤ a.total_score) ∧
     (∀ c : List ScoredEntry,
        c.Pairwise (fun a b => b.total_score ≤ a.total_score) →
        c.Sublist (groq_scored_unsorted oracle papers) →
        c.Sublist (score_with_groq oracle papers))) ∧
    ((score_with_gemini oracle papers).Perm (gemini_scored_unsorted oracle papers) ∧
     (score_with_gemini oracle papers).Pairwise
       (fun a b => b.total_score ≤ a.total_score) ∧
     (∀ c : List ScoredEntry,
        c.Pairwise (fun a b => b.total_score ≤ a.total_score) →
        c.Sublist (gemini_scored_unsorted oracle papers) →
        c.Sublist (score_with_gemini oracle papers))) := by
  have mk : ∀ l : List ScoredEntry,
      (sortByScoreDesc l).Perm l ∧
      (sortByScoreDesc l).Pairwise (fun a b => b.total_score ≤ a.total_score) ∧
      (∀ c : List ScoredEntry,
        c.Pairwise (fun a b => b.total_score ≤ a.total_score) →
        c.Sublist l → c.Sublist (sortByScoreDesc l)) := by
    intro l
    refine ⟨List.mergeSort_perm l _, ?_, ?_⟩
    · have h := @List.sorted_mergeSort ScoredEntry
        (fun a b => decide (b.total_score ≤ a.total_score))
        scoreDescLe_trans scoreDescLe_total l
      exact h.imp fun hab => of_decide_eq_true hab
    · intro c hc hsub
      exact List.sublist_mergeSort scoreDescLe_trans scoreDescLe_total
        (hc.imp fun hab => decide_eq_true hab) hsub
  exact ⟨mk _, mk _⟩

/-- Witness for C6: a two-paper batch whose calls both raise, so both
entries carry the tied total 5; the instantiated theorem provides the
permutation, sortedness and stability of both runs' outputs. -/
theorem C6_sorted_descending_stable_witness :
    ([Paper.mk "p0" "T0" "cs.LG" "a0", Paper.mk "p1" "T1" "cs.CV" "a1"] ≠
      ([] : List Paper)) ∧
    (((score_with_groq (fun i => Except.error "down")
        [Paper.mk "p0" "T0" "cs.LG" "a0", Paper.mk "p1" "T1" "cs.CV" "a1"]).Perm
        (groq_scored_unsorted (fun i => Except.error "down")
          [Paper.mk "p0" "T0" "cs.LG" "a0", Paper.mk "p1" "T1" "cs.CV" "a1"]) ∧
      (score_with_groq (fun i => Except.error "down")
        [Paper.mk "p0" "T0" "cs.LG" "a0", Paper.mk "p1" "T1" "cs.CV" "a1"]).Pairwise
        (fun a b => b.total_score ≤ a.total_score) ∧
      (∀ c : List ScoredEntry,
        c.Pairwise (fun a b => b.total_score ≤ a.total_score) →
        c.Sublist (groq_scored_unsorted (fun i => Except.error "down")
          [Paper.mk "p0" "T0" "cs.LG" "a0", Paper.mk "p1" "T1" "cs.CV" "a1"]) →
        c.Sublist (score_with_groq (fun i => Except.error "down")
          [Paper.mk "p0" "T0" "cs.LG" "a0", Paper.mk "p1" "T1" "cs.CV" "a1"]))) ∧
     ((score_with_gemini (fun i => Except.error "down")
        [Paper.mk "p0" "T0" "cs.LG" "a0", Paper.mk "p1" "T1" "cs.CV" "a1"]).Perm
        (gemini_scored_unsorted (fun i => Except.error "down")
          [Paper.mk "p0" "T0" "cs.LG" "a0", Paper.mk "p1" "T1" "cs.CV" "a1"]) ∧
      (score_with_gemini (fun i => Except.error "down")
        [Paper.mk "p0" "T0" "cs.LG" "a0", Paper.mk "p1" "T1" "cs.CV" "a1"]).Pairwise
        (fun a b => b.total_score ≤ a.total_score) ∧
      (∀ c : List ScoredEntry,
        c.Pairwise (fun a b => b.total_score ≤ a.total_score) →
        c.Sublist (gemini_scored_unsorted (fun i => Except.error "down")
          [Paper.mk "p0" "T0" "cs.LG" "a0", Paper.mk "p1" "T1" "cs.CV" "a1"]) →
        c.Sublist (score_with_gemini (fun i => Except.error "down")
          [Paper.mk "p0" "T0" "cs.LG" "a0", Paper.mk "p1" "T1" "cs.CV" "a1"])))) :=
  ⟨by simp,
   C6_sorted_descending_stable (fun i => Except.error "down")
     [Paper.mk "p0" "T0" "cs.LG" "a0", Paper.mk "p1" "T1" "cs.CV" "a1"] (by simp)⟩

/-- Bounds for the weighted sum: with nonnegative weights and every weighted
criterion a number in `[1, 10]`, the sum lies between `1 ×` and `10 ×` the
total weight. -/
theorem weightedTotal_bounds (scores : Json) :
    ∀ weights : List (String × Rat),
    (∀ cw ∈ weights, 0 ≤ cw.2) →
    (∀ cw ∈ weights, ∃ q : Rat, scores.getField cw.1 = some (.num q) ∧ 1 ≤ q ∧ q ≤ 10) →
    ∃ t : Rat, weightedTotal weights scores = .ok t ∧
      (weights.map Prod.snd).sum ≤ t ∧ t ≤ 10 * (weights.map Prod.snd).sum := by
  intro weights
  induction weights with
  | nil => intro _ _; exact ⟨0, rfl, by simp⟩
  | cons cw rest ih =>
    intro hpos hs
    obtain ⟨q, hq, hq1, hq10⟩ := hs cw (List.mem_cons_self cw rest)
    obtain ⟨s, hrec, hs1, hs10⟩ := ih (fun c hc => hpos c (List.mem_cons_of_mem _ hc))
      (fun c hc => hs c (List.mem_cons_of_mem _ hc))
    have hw := hpos cw (List.mem_cons_self cw rest)
    refine ⟨qadd (qmul q cw.2) s, ?_, ?_, ?_⟩
    · simp [weightedTotal, jsonTimesWeight, hq, hrec]
    · rw [qadd_eq, qmul_eq]
      simp only [List.map_cons, List.sum_cons]
      have hlow : cw.2 ≤ q * cw.2 := by nlinarith
      linarith
    · rw [qadd_eq, qmul_eq]
      simp only [List.map_cons, List.sum_cons]
      have hhigh : q * cw.2 ≤ 10 * cw.2 := by nlinarith
      linarith

/-- C8: for every weight map (per §4.1 of the spec, a map into weights in
`(0, 1]`) whose weights sum to 1, and every score payload giving each
weighted criterion a numeric score in `[1, 10]`, the weighted total
`Σ (weight × score)` computed by the scoring runs lies in `[1, 10]`. -/
theorem C8_weighted_total_in_range (weights : List (String × Rat)) (scores : Json)
    (hw : ∀ cw ∈ weights, 0 < cw.2 ∧ cw.2 ≤ 1)
    (hsum : (weights.map Prod.snd).sum = 1)
    (hs : ∀ cw ∈ weights, ∃ q : Rat,
      scores.getField cw.1 = some (.num q) ∧ 1 ≤ q ∧ q ≤ 10) :
    ∃ t : Rat, weightedTotal weights scores = .ok t ∧ 1 ≤ t ∧ t ≤ 10 := by
  obtain ⟨t, ht, h1, h2⟩ := weightedTotal_bounds scores weights
    (fun c hc => le_of_lt (hw c hc).1) hs
  rw [hsum] at h1 h2
  exact ⟨t, ht, by linarith, by linarith⟩

/-- Witness for C8 at the repository's own configuration: the four
`SCORING_WEIGHTS` of 0.25 each and a payload scoring every criterion 7. -/
theorem C8_weighted_total_in_range_witness :
    (∀ cw ∈ SCORING_WEIGHTS, 0 < cw.2 ∧ cw.2 ≤ 1) ∧
    (SCORING_WEIGHTS.map Prod.snd).sum = 1 ∧
    (∀ cw ∈ SCORING_WEIGHTS, ∃ q : Rat,
      (Json.obj [("problem_relevance", .num 7), ("dataset_quality", .num 7),
                 ("model_novelty", .num 7), ("real_world_impact", .num 7)]).getField cw.1 =
        some (.num q) ∧ 1 ≤ q ∧ q ≤ 10) ∧
    (∃ t : Rat, weightedTotal SCORING_WEIGHTS
        (Json.obj [("problem_relevance", .num 7), ("dataset_quality", .num 7),
                   ("model_novelty", .num 7), ("real_world_impact", .num 7)]) = .ok t ∧
      1 ≤ t ∧ t ≤ 10) :=
  have hw : ∀ cw ∈ SCORING_WEIGHTS, 0 < cw.2 ∧ cw.2 ≤ 1 := by decide
  have hsum : (SCORING_WEIGHTS.map Prod.snd).sum = 1 := by with_unfolding_all rfl
  have hs : ∀ cw ∈ SCORING_WEIGHTS, ∃ q : Rat,
      (Json.obj [("problem_relevance", .num 7), ("dataset_quality", .num 7),
                 ("model_novelty", .num 7), ("real_world_impact", .num 7)]).getField cw.1 =
        some (.num q) ∧ 1 ≤ q ∧ q ≤ 10 := by
    intro cw hcw
    fin_cases hcw <;> exact ⟨7, rfl, by decide, by decide⟩
  ⟨hw, hsum, hs,
   C8_weighted_total_in_range SCORING_WEIGHTS
     (Json.obj [("problem_relevance", .num 7), ("dataset_quality", .num 7),
                ("model_novelty", .num 7), ("real_world_impact", .num 7)]) hw hsum hs⟩

end ProtoML
